import Mathlib

/-!
# Verification of the streaming-cloud signaling / SFU orchestration core

Shallow embedding of the cluster-aware signaling engine and media-engine
orchestration layer:

* `RateLimiterService` (signaling/src/services/RateLimiterService.ts)
* `SFUManager` (signaling/src/services/SFUManager.ts)
* `RedisService` room-router / heartbeat keys (signaling/src/services/RedisService.ts)
* `WorkerManager` (sfu/src/workers/WorkerManager.ts)
* `RouterManager` (sfu/src/routers/RouterManager.ts)
* `RoomManager` and `SignalingServer` (signaling services, WebSocket handler)

JavaScript `Map` objects and Redis hashes are embedded as association lists
with string keys (`SMap`); external collaborators (mediasoup, the auth
service, the rate-limiter library's window counter) are embedded as explicit
function parameters or abstract counter maps, as noted at each definition.
-/

namespace StreamingCloud

/-- Association list with string keys, embedding a JS `Map<string, α>`
(and Redis hashes).  Operations mirror `Map.get` / `Map.set` /
`Map.delete` / `Map.size`. -/
def SMap (α : Type) : Type := List (String × α)

instance (α : Type) [DecidableEq α] : DecidableEq (SMap α) := by
  unfold SMap; infer_instance

instance (α : Type) [Repr α] : Repr (SMap α) := by
  unfold SMap; infer_instance

instance (α : Type) : Membership (String × α) (SMap α) := by
  unfold SMap; infer_instance

namespace SMap

/-- `Map.get`: first binding of the key, if any. -/
def find? {α : Type} (m : SMap α) (k : String) : Option α :=
  match m with
  | [] => none
  | (k', v) :: rest => if k' = k then some v else find? rest k

/-- `Map.set`: replace the binding in place if the key is present,
append otherwise. -/
def set {α : Type} (m : SMap α) (k : String) (v : α) : SMap α :=
  match m with
  | [] => [(k, v)]
  | (k', v') :: rest => if k' = k then (k, v) :: rest else (k', v') :: set rest k v

/-- `Map.delete`: drop the first binding of the key. -/
def erase {α : Type} (m : SMap α) (k : String) : SMap α :=
  match m with
  | [] => []
  | (k', v') :: rest => if k' = k then rest else (k', v') :: erase rest k

/-- `Map.size`. -/
def size {α : Type} (m : SMap α) : Nat :=
  m.length

/-- `Map.values` in insertion order. -/
def values {α : Type} (m : SMap α) : List α :=
  m.map Prod.snd

/-- Map a function over every stored value (`for (const v of map.values()) ...`
style in-place updates). -/
def mapValues {α : Type} (m : SMap α) (f : α → α) : SMap α :=
  m.map (fun kv => (kv.1, f kv.2))

/-- The keys are pairwise distinct — the invariant a JS `Map` maintains. -/
def keysNodup {α : Type} (m : SMap α) : Prop :=
  (m.map Prod.fst).Nodup

instance {α : Type} (m : SMap α) : Decidable (keysNodup m) := by
  unfold keysNodup; infer_instance

end SMap

/-! ## Media Engine Pool — `WorkerManager` (sfu/src/workers/WorkerManager.ts)

One entry of `WorkerManager.workers`.  The mediasoup worker object itself is
external; we keep its `pid` (used as the identity that
`workers.find((w) => w.worker === worker)` resolves), the tracked
`routerCount`, the last sampled resource usage (`null` until the first
sampling tick) and the `closed` flag.  `routerCount` is embedded as `Int`
(a JS number) so that non-negativity is a real claim, not a typing
artifact. -/

structure WorkerInfo where
  pid : Nat
  routerCount : Int
  usage : Option Int
  closed : Bool
  deriving Repr, DecidableEq

/-- Apply `f` to the first list element satisfying `p` (the effect of
mutating the object returned by `Array.prototype.find`). -/
def applyFirst {α : Type} (p : α → Bool) (f : α → α) : List α → List α
  | [] => []
  | a :: as => if p a then f a :: as else a :: applyFirst p f as

/-- `WorkerManager.incrementRouterCount`: find the worker, add one. -/
def incrementRouterCount (pid : Nat) (ws : List WorkerInfo) : List WorkerInfo :=
  applyFirst (fun w => w.pid = pid)
    (fun w => { w with routerCount := w.routerCount + 1 }) ws

/-- `WorkerManager.decrementRouterCount`: find the worker, subtract one only
when the count is strictly positive. -/
def decrementRouterCount (pid : Nat) (ws : List WorkerInfo) : List WorkerInfo :=
  applyFirst (fun w => w.pid = pid)
    (fun w => if w.routerCount > 0 then { w with routerCount := w.routerCount - 1 } else w) ws

/-- `WorkerManager.handleWorkerDeath`: after the restart delay the slot at
`index` is replaced with a fresh worker record (`routerCount: 0`,
`usage: null`). -/
def handleWorkerDeath (ws : List WorkerInfo) (index : Nat) (newPid : Nat) : List WorkerInfo :=
  ws.set index { pid := newPid, routerCount := 0, usage := none, closed := false }

/-- `WorkerManager.initialize`: `numWorkers` fresh slots, all counts zero.
`pids` are the OS pids of the spawned mediasoup processes. -/
def initializeWorkers (pids : List Nat) : List WorkerInfo :=
  pids.map (fun p => { pid := p, routerCount := 0, usage := none, closed := false })

/-- The operations that touch `routerCount` over a worker pool's lifetime. -/
inductive WMOp where
  | inc (pid : Nat)
  | dec (pid : Nat)
  | death (index : Nat) (newPid : Nat)
  deriving Repr, DecidableEq

def wmStep (ws : List WorkerInfo) : WMOp → List WorkerInfo
  | .inc pid => incrementRouterCount pid ws
  | .dec pid => decrementRouterCount pid ws
  | .death index newPid => handleWorkerDeath ws index newPid

def wmRun (ws : List WorkerInfo) (ops : List WMOp) : List WorkerInfo :=
  ops.foldl wmStep ws

/-- The per-slot invariant of claim C9. -/
def routerCountsNonneg (ws : List WorkerInfo) : Prop :=
  ∀ w ∈ ws, 0 ≤ w.routerCount

/-! ## Admission Controller — `RateLimiterService`
(signaling/src/services/RateLimiterService.ts)

The three limiters of the service are window counters from the external
`rate-limiter-flexible` library.  Within one window a limiter is a map from
key to consumed points; `consume(key, 1)` succeeds (incrementing the stored
count) while the count is below the configured `points` and rejects
otherwise.  `delete(key)` drops the stored counter.  The service state keeps
the per-connection limiter (`rl:msg:` keys) and the per-user global limiter
(`rl:msg:global:` keys); both are addressed below by the raw key, the
distinct prefixes being modelled by the two separate maps. -/

structure RateLimiterConfig where
  messagePoints : Nat
  globalMessagePoints : Nat
  deriving Repr, DecidableEq

structure RLState where
  msgCounts : SMap Nat
  globalCounts : SMap Nat
  deriving Repr, DecidableEq

/-- One `limiter.consume(key, 1)` within the current window: `some`
updated counters when allowed, `none` when the limit is exhausted. -/
def consumePoint (points : Nat) (m : SMap Nat) (key : String) : Option (SMap Nat) :=
  let cur := (m.find? key).getD 0
  if cur < points then some (m.set key (cur + 1)) else none

/-- `RateLimiterService.checkMessage`: consume from the per-connection
limiter first, then — only if a user id is supplied — from the global
per-user limiter; any rejection is caught and reported as denied.  A
rejection of the second consume does not undo the first. -/
def checkMessage (cfg : RateLimiterConfig) (s : RLState)
    (connectionId : String) (userId : Option String) : Bool × RLState :=
  match consumePoint cfg.messagePoints s.msgCounts connectionId with
  | none => (false, s)
  | some m' =>
    match userId with
    | none => (true, { s with msgCounts := m' })
    | some uid =>
      match consumePoint cfg.globalMessagePoints s.globalCounts uid with
      | none => (false, { s with msgCounts := m' })
      | some g' => (true, { msgCounts := m', globalCounts := g' })

/-- `RateLimiterService.reset(key)`: `messageLimiter.delete(key)` followed by
`globalMessageLimiter.delete(key)`. -/
def resetLimits (s : RLState) (key : String) : RLState :=
  { msgCounts := s.msgCounts.erase key, globalCounts := s.globalCounts.erase key }

/-- The rate-limit portion of `SignalingServer.cleanupClient`:
`reset(client.id)` and, when the client is authenticated,
`reset(client.user.id)` as well. -/
def cleanupClientRateLimits (s : RLState) (clientId : String)
    (userId : Option String) : RLState :=
  let s1 := resetLimits s clientId
  match userId with
  | some uid => resetLimits s1 uid
  | none => s1

/-! ## Cluster Coordinator, signaling side — `SFUManager`
(signaling/src/services/SFUManager.ts) with the Redis keys of
`RedisService` (room:routers hash, sfu:node:{id}:heartbeat and
sfu:node:{id}:stats entries). -/

structure SFUNode where
  id : String
  host : String
  port : Nat
  isHealthy : Bool
  load : Nat
  deriving Repr, DecidableEq

/-- The stored `room:routers` hash value `{nodeId, routerId}`. -/
structure RoomAlloc where
  nodeId : String
  routerId : String
  deriving Repr, DecidableEq

structure SFUMState where
  nodes : List SFUNode
  placements : SMap RoomAlloc
  deriving Repr, DecidableEq

/-- `SFUManager.getBestNode`: filter healthy nodes, sort ascending by load,
return the first.  The stable sort's first element is the earliest node of
minimal load, computed here by a fold that only replaces the candidate on a
strictly smaller load. -/
def getBestNode (nodes : List SFUNode) : Option SFUNode :=
  match nodes.filter (fun n => n.isHealthy) with
  | [] => none
  | n :: rest => some (rest.foldl (fun best c => if c.load < best.load then c else best) n)

/-- What `allocateRoom` returns to the caller (the constant ICE-server list
is omitted: it never varies with the allocation). -/
structure AllocResult where
  node : String
  routerId : String
  deriving Repr, DecidableEq

/-- `SFUManager.allocateRoom`: reuse the stored allocation when one exists
(returning the stored `nodeId`/`routerId` and writing nothing); otherwise
pick the best node, mint `router-{roomId}-{Date.now()}` and store the
placement.  Throws (`.error`) when no healthy node is available. -/
def allocateRoom (s : SFUMState) (roomId : String) (now : Nat) :
    Except String (AllocResult × SFUMState) :=
  match s.placements.find? roomId with
  | some existing => .ok ({ node := existing.nodeId, routerId := existing.routerId }, s)
  | none =>
    match getBestNode s.nodes with
    | none => .error "No available SFU nodes"
    | some node =>
      let routerId := "router-" ++ roomId ++ "-" ++ toString now
      .ok ({ node := node.host ++ ":" ++ toString node.port, routerId := routerId },
           { s with placements := s.placements.set roomId { nodeId := node.id, routerId := routerId } })

/-- `SFUManager.releaseRoom`: `redis.deleteRoomRouter(roomId)` (an `hdel`
on the `room:routers` hash). -/
def releaseRoom (s : SFUMState) (roomId : String) : SFUMState :=
  { s with placements := s.placements.erase roomId }

/-- One node's update inside `SFUManager.checkHealth`.  `heartbeatOf` and
`statsRoutersOf` are the Redis reads of `sfu:node:{id}:heartbeat` (a TTL key
written by the SFU node, so an unrefreshed entry reads as absent) and of the
`routers` field of `sfu:node:{id}:stats`.  When the heartbeat key is present
the node is marked healthy iff it is younger than 60 s; when it is absent the
`if (heartbeat)` guard skips the health update entirely. -/
def checkHealthNode (heartbeatOf : String → Option Nat)
    (statsRoutersOf : String → Option Nat) (now : Nat) (n : SFUNode) : SFUNode :=
  let n1 :=
    match heartbeatOf n.id with
    | some lastBeat => { n with isHealthy := decide (now - lastBeat < 60000) }
    | none => n
  match statsRoutersOf n1.id with
  | some routers => { n1 with load := routers }
  | none => n1

/-- `SFUManager.checkHealth` over the whole node map. -/
def checkHealth (heartbeatOf : String → Option Nat)
    (statsRoutersOf : String → Option Nat) (now : Nat)
    (nodes : List SFUNode) : List SFUNode :=
  nodes.map (checkHealthNode heartbeatOf statsRoutersOf now)

/-! ## Routing Context Manager — `RouterManager`
(sfu/src/routers/RouterManager.ts)

The mediasoup objects held in a `RoomRouter`'s maps are kept by id; a
producer keeps its media `kind`, a consumer the producer it subscribes to.
The engine router's `rtpCapabilities` and its `canConsume` oracle are
engine-native and embedded as data carried by the router record
(`canConsume` takes the producer id and the consumer's declared
capabilities blob). -/

structure MsProducer where
  id : String
  kind : String
  deriving Repr, DecidableEq

structure MsConsumer where
  id : String
  producerId : String
  kind : String
  deriving Repr, DecidableEq

structure RoomRouter where
  id : String
  roomId : String
  workerPid : Nat
  rtpCapabilities : String
  canConsume : String → String → Bool
  transports : SMap String
  producers : SMap MsProducer
  consumers : SMap MsConsumer

/-- State of one SFU node's `RouterManager` together with the pieces it
touches: the `WorkerManager` pool and the shared `room:routers` hash. -/
structure RouterMState where
  routers : SMap RoomRouter
  workers : List WorkerInfo
  placements : SMap RoomAlloc
  nodeId : String

/-- The lookup `Array.from(this.routers.values()).find((r) => r.roomId === roomId)`. -/
def findRouterByRoom (routers : SMap RoomRouter) (roomId : String) : Option RoomRouter :=
  routers.values.find? (fun r => r.roomId == roomId)

/-- Load score of a worker inside `getLeastLoadedWorker`: `routerCount`
plus the CPU factor derived from the last usage sample (0 when the sample
is still `null`).  The division by 10^6 is absorbed into the sampled
value. -/
def workerLoadScore (w : WorkerInfo) : Int :=
  w.routerCount + (w.usage.getD 0)

/-- `WorkerManager.getLeastLoadedWorker`: scan all slots in order, skip
closed workers, keep the first index of strictly minimal load score; when
every worker is closed the initial `selectedIndex = 0` is returned. -/
def getLeastLoadedWorkerIdx (ws : List WorkerInfo) : Nat :=
  let best := (ws.enum).foldl
    (fun (acc : Option (Nat × Int)) (iw : Nat × WorkerInfo) =>
      if iw.2.closed then acc
      else
        match acc with
        | none => some (iw.1, workerLoadScore iw.2)
        | some (bi, bl) =>
          if workerLoadScore iw.2 < bl then some (iw.1, workerLoadScore iw.2)
          else some (bi, bl))
    none
  match best with
  | none => 0
  | some (i, _) => i

/-- `RouterManager.createRouter`.  When a router for the room already
exists its id and capabilities are returned and nothing changes; otherwise
a router is created on the least-loaded worker (`freshId` stands for the
`uuidv4()`, `caps` and `cc` for the engine-created router's
`rtpCapabilities` and `canConsume`), the worker's count is incremented and
the placement is written to the shared hash. -/
def createRouter (s : RouterMState) (roomId freshId caps : String)
    (cc : String → String → Bool) :
    (String × String) × RouterMState :=
  match findRouterByRoom s.routers roomId with
  | some existing => ((existing.id, existing.rtpCapabilities), s)
  | none =>
    let idx := getLeastLoadedWorkerIdx s.workers
    let wpid := match s.workers.get? idx with
      | some w => w.pid
      | none => 0
    let rr : RoomRouter :=
      { id := freshId, roomId := roomId, workerPid := wpid,
        rtpCapabilities := caps, canConsume := cc,
        transports := [], producers := [], consumers := [] }
    ((freshId, caps),
     { s with
        routers := s.routers.set freshId rr,
        workers := incrementRouterCount wpid s.workers,
        placements := s.placements.set roomId { nodeId := s.nodeId, routerId := freshId } })

/-- `RouterManager.consume`.  Missing router/transport/producer throw; an
incompatible `canConsume` answer returns `null` before anything is created
or stored; otherwise the engine-created consumer (`freshConsumerId` stands
for its id, its kind copied from the producer) is stored and returned. -/
def routerConsume (s : RouterMState)
    (routerId transportId producerId rtpCapabilities freshConsumerId : String) :
    Except String (Option MsConsumer × RouterMState) :=
  match s.routers.find? routerId with
  | none => .error ("Router not found: " ++ routerId)
  | some rr =>
    match rr.transports.find? transportId with
    | none => .error ("Transport not found: " ++ transportId)
    | some _ =>
      match rr.producers.find? producerId with
      | none => .error ("Producer not found: " ++ producerId)
      | some producer =>
        if rr.canConsume producerId rtpCapabilities then
          let consumer : MsConsumer :=
            { id := freshConsumerId, producerId := producerId, kind := producer.kind }
          let rr' := { rr with consumers := rr.consumers.set freshConsumerId consumer }
          .ok (some consumer, { s with routers := s.routers.set routerId rr' })
        else
          .ok (none, s)

/-! ## Worker death at system level
(sfu/src/workers/WorkerManager.ts, `worker.on('died', ...)`)

The complete reaction of the SFU node to a worker's `died` signal is the
call to `handleWorkerDeath(index)` installed in `createWorker`: wait, then
replace the slot with a fresh worker whose `routerCount` is 0.  No router is
closed, no placement is deleted from the shared store, and no message of any
kind is emitted towards signaling or clients, so the remaining system state
is carried through unchanged.  `notifications` records every outbound
participant-facing event the SFU node ever emits (there is no emission path
in the source, so death handling appends nothing). -/

structure SfuSystem where
  workers : List WorkerInfo
  routers : SMap RoomRouter
  placements : SMap RoomAlloc
  notifications : List (String × String)

def onWorkerDied (s : SfuSystem) (index : Nat) (newPid : Nat) : SfuSystem :=
  { s with workers := handleWorkerDeath s.workers index newPid }

/-! ## Session Directory — `RoomManager` (signaling service)

Per-room signaling-side state: roster keyed by participant id, each entry
holding that participant's producers and consumers. -/

structure ProducerState where
  id : String
  kind : String
  source : String
  paused : Bool
  deriving Repr, DecidableEq

structure ConsumerState where
  id : String
  producerId : String
  kind : String
  paused : Bool
  deriving Repr, DecidableEq

structure RoomParticipant where
  id : String
  odUserId : String
  displayName : String
  role : String
  rtpCapabilities : Option String
  sendTransportId : Option String
  recvTransportId : Option String
  producers : SMap ProducerState
  consumers : SMap ConsumerState
  deriving Repr, DecidableEq

structure RoomState where
  id : String
  sfuNode : String
  routerId : String
  routerRtpCapabilities : String
  participants : SMap RoomParticipant
  deriving Repr, DecidableEq

/-- `RoomManager` together with the `SFUManager` it delegates to. -/
structure SigState where
  rooms : SMap RoomState
  sfu : SFUMState
  deriving Repr, DecidableEq

/-- The empty JSON object the source uses where engine capabilities would
come from the SFU. -/
def emptyJson : String := "\x7b\x7d"

structure JoinInfo where
  participantId : String
  routerRtpCapabilities : String
  sfuNode : String
  deriving Repr, DecidableEq

/-- `RoomManager.joinRoom`: allocate (only) when the room is unknown
locally, then add a fresh participant `p-{userId}-{Date.now()}` to the
roster. -/
def joinRoomRM (s : SigState) (roomId userId role displayName : String) (now : Nat) :
    Except String (JoinInfo × SigState) :=
  let participantId := "p-" ++ userId ++ "-" ++ toString now
  let participant : RoomParticipant :=
    { id := participantId, odUserId := userId, displayName := displayName, role := role,
      rtpCapabilities := none, sendTransportId := none, recvTransportId := none,
      producers := [], consumers := [] }
  match s.rooms.find? roomId with
  | some room =>
    let room' := { room with participants := room.participants.set participantId participant }
    .ok ({ participantId := participantId,
           routerRtpCapabilities := room.routerRtpCapabilities, sfuNode := room.sfuNode },
         { s with rooms := s.rooms.set roomId room' })
  | none =>
    match allocateRoom s.sfu roomId now with
    | .error e => .error e
    | .ok (alloc, sfu') =>
      let room : RoomState :=
        { id := roomId, sfuNode := alloc.node, routerId := alloc.routerId,
          routerRtpCapabilities := emptyJson, participants := [] }
      let room' := { room with participants := room.participants.set participantId participant }
      .ok ({ participantId := participantId,
             routerRtpCapabilities := room.routerRtpCapabilities, sfuNode := room.sfuNode },
           { rooms := s.rooms.set roomId room', sfu := sfu' })

/-- `RoomManager.leaveRoom`: drop the participant; when the roster becomes
empty, release the allocation and delete the room. -/
def leaveRoomRM (s : SigState) (roomId participantId : String) : SigState :=
  match s.rooms.find? roomId with
  | none => s
  | some room =>
    let room' := { room with participants := room.participants.erase participantId }
    if room'.participants.size = 0 then
      { rooms := s.rooms.erase roomId, sfu := releaseRoom s.sfu roomId }
    else
      { s with rooms := s.rooms.set roomId room' }

/-- `RoomManager.setParticipantRtpCapabilities`. -/
def setParticipantRtpCapabilities (s : SigState) (roomId participantId caps : String) :
    SigState :=
  match s.rooms.find? roomId with
  | none => s
  | some room =>
    match room.participants.find? participantId with
    | none => s
    | some p =>
      let p' := { p with rtpCapabilities := some caps }
      let room' := { room with participants := room.participants.set participantId p' }
      { s with rooms := s.rooms.set roomId room' }

/-- `RoomManager.createTransport` (the engine call is mocked in the source;
the transport id is recorded on the participant). -/
def createTransportRM (s : SigState) (roomId participantId direction : String) (now : Nat) :
    String × SigState :=
  let transportId := "transport-" ++ direction ++ "-" ++ participantId ++ "-" ++ toString now
  match s.rooms.find? roomId with
  | none => (transportId, s)
  | some room =>
    match room.participants.find? participantId with
    | none => (transportId, s)
    | some p =>
      let p' := if direction = "send" then { p with sendTransportId := some transportId }
                else { p with recvTransportId := some transportId }
      let room' := { room with participants := room.participants.set participantId p' }
      (transportId, { s with rooms := s.rooms.set roomId room' })

/-- `RoomManager.produce`: mint the producer id and record it on the
participant (`source` falls back to the kind when no appData is given). -/
def produceRM (s : SigState) (roomId participantId kind : String)
    (appDataSource : Option String) (now : Nat) : String × SigState :=
  let producerId := "producer-" ++ kind ++ "-" ++ participantId ++ "-" ++ toString now
  match s.rooms.find? roomId with
  | none => (producerId, s)
  | some room =>
    match room.participants.find? participantId with
    | none => (producerId, s)
    | some p =>
      let prod : ProducerState :=
        { id := producerId, kind := kind, source := appDataSource.getD kind, paused := false }
      let p' := { p with producers := p.producers.set producerId prod }
      let room' := { room with participants := room.participants.set participantId p' }
      (producerId, { s with rooms := s.rooms.set roomId room' })

/-- `RoomManager.consume`: mints a consumer, records it on the participant
when found, and always returns the (mock) consumer object — the signaling
side performs no capability check of its own. -/
def consumeRM (s : SigState) (roomId participantId producerId : String) (now : Nat) :
    Option MsConsumer × SigState :=
  let consumerId := "consumer-" ++ producerId ++ "-" ++ participantId ++ "-" ++ toString now
  let result : MsConsumer := { id := consumerId, producerId := producerId, kind := "video" }
  match s.rooms.find? roomId with
  | none => (some result, s)
  | some room =>
    match room.participants.find? participantId with
    | none => (some result, s)
    | some p =>
      let c : ConsumerState :=
        { id := consumerId, producerId := producerId, kind := "video", paused := true }
      let p' := { p with consumers := p.consumers.set consumerId c }
      let room' := { room with participants := room.participants.set participantId p' }
      (some result, { s with rooms := s.rooms.set roomId room' })

/-- `RoomManager.closeProducer`: delete the producer id from every
participant of the room. -/
def closeProducerRM (s : SigState) (roomId producerId : String) : SigState :=
  match s.rooms.find? roomId with
  | none => s
  | some room =>
    let room' :=
      { room with participants :=
          room.participants.mapValues (fun p => { p with producers := p.producers.erase producerId }) }
    { s with rooms := s.rooms.set roomId room' }

/-- `RoomManager.getRouterRtpCapabilities`. -/
def getRouterRtpCapabilitiesRM (s : SigState) (roomId : String) : String :=
  match s.rooms.find? roomId with
  | some room => room.routerRtpCapabilities
  | none => emptyJson

/-- The signaling node's `RoomManager` view next to the owning SFU node's
`RouterManager.routers` map.  `RoomManager.leaveRoom` runs on the signaling
node; `sfuManager.releaseRoom` only deletes the `room:routers` hash entry
from the shared store — no call of the leave path reaches the SFU node's
`RouterManager`, so its routers map is carried through unchanged. -/
structure ClusterState where
  sig : SigState
  sfuRouters : SMap RoomRouter

def clusterLeaveRoom (c : ClusterState) (roomId participantId : String) : ClusterState :=
  { c with sig := leaveRoomRM c.sig roomId participantId }

/-! ## Protocol Gateway — `SignalingServer` (WebSocket handler)

One `ConnectedClient`, the inbound protocol messages, and the visible
outcome of one `handleMessage` dispatch: the updated client and
`RoomManager` state, the messages sent (to the caller or broadcast to the
room, payloads reduced to the event name and, for `error` events, the
message and code), the `RoomManager` methods invoked in order, and whether
the server closed the socket (`handleMessage` never does). -/

structure Client where
  id : String
  user : Option String
  roomId : Option String
  participantId : Option String
  transportIds : List String
  producerIds : List String
  consumerIds : List String
  deriving Repr, DecidableEq

inductive Target where
  | toSelf
  | broadcastRoom (roomId : String)
  deriving Repr, DecidableEq

structure OutMsg where
  target : Target
  event : String
  errMessage : Option String
  errCode : Option String
  deriving Repr, DecidableEq

/-- `this.send(client, {event, data})` with a non-error event. -/
def evt (e : String) : OutMsg :=
  { target := .toSelf, event := e, errMessage := none, errCode := none }

/-- `this.sendError(client, message, code?)`. -/
def errEvt (m : String) (c : Option String) : OutMsg :=
  { target := .toSelf, event := "error", errMessage := some m, errCode := c }

/-- `this.broadcastToRoom(roomId, client.id, {event, data})`. -/
def bcast (roomId e : String) : OutMsg :=
  { target := .broadcastRoom roomId, event := e, errMessage := none, errCode := none }

inductive ClientMessage where
  | authenticate (token orgId : String)
  | joinRoom (roomId role displayName : String) (rtpCapabilities : Option String)
  | leaveRoom
  | createTransport (direction : String) (sctpCapabilities : Option String)
  | connectTransport (transportId dtls : String)
  | produce (transportId kind rtpParameters : String) (appDataSource : Option String)
  | consume (producerId rtpCapabilities : String)
  | resumeConsumer (consumerId : String)
  | pauseProducer (producerId : String)
  | resumeProducer (producerId : String)
  | closeProducer (producerId : String)
  | setPreferredLayers (consumerId : String) (spatial : Nat) (temporal : Option Nat)
  | getRouterRtpCapabilities (roomId : String)
  | unknown (event : String)
  deriving Repr, DecidableEq

structure HandleResult where
  client : Client
  rm : SigState
  sent : List OutMsg
  rmCalls : List String
  closedConn : Bool
  deriving Repr, DecidableEq

/-- `SignalingServer.cleanupClientRoom`: close each producer the client
owns, leave the room, broadcast `participant-left`, clear the client's room
state.  A client without a room id or participant id is a no-op. -/
def cleanupClientRoom (cl : Client) (s : SigState) : HandleResult :=
  match cl.roomId, cl.participantId with
  | some roomId, some participantId =>
    let s1 := cl.producerIds.foldl (fun acc producerId => closeProducerRM acc roomId producerId) s
    let s2 := leaveRoomRM s1 roomId participantId
    { client := { cl with roomId := none, participantId := none,
                          transportIds := [], producerIds := [], consumerIds := [] },
      rm := s2,
      sent := [bcast roomId "participant-left"],
      rmCalls := cl.producerIds.map (fun _ => "closeProducer") ++ ["leaveRoom"],
      closedConn := false }
  | _, _ =>
    { client := cl, rm := s, sent := [], rmCalls := [], closedConn := false }

/-- `SignalingServer.handleMessage` and the handlers it dispatches to.
`auth` is the external `AuthService.verifyToken` (token to user id, `none`
on rejection), `isMember` the external `verifyOrganizationMembership`. -/
def handleMessage (auth : String → Option String) (isMember : String → String → Bool)
    (now : Nat) (cl : Client) (s : SigState) : ClientMessage → HandleResult
  | .authenticate token orgId =>
    match auth token with
    | none =>
      { client := cl, rm := s, sent := [errEvt "Authentication failed" (some "AUTH_FAILED")],
        rmCalls := [], closedConn := false }
    | some uid =>
      if isMember uid orgId then
        { client := { cl with user := some uid }, rm := s, sent := [evt "authenticated"],
          rmCalls := [], closedConn := false }
      else
        { client := cl, rm := s,
          sent := [errEvt "Not a member of this organization" (some "AUTH_FAILED")],
          rmCalls := [], closedConn := false }
  | .joinRoom roomId role displayName rtpCaps =>
    match cl.user with
    | none =>
      { client := cl, rm := s, sent := [errEvt "Not authenticated" (some "NOT_AUTHENTICATED")],
        rmCalls := [], closedConn := false }
    | some uid =>
      match joinRoomRM s roomId uid role displayName now with
      | .error _ =>
        { client := cl, rm := s, sent := [errEvt "Failed to join room" (some "JOIN_FAILED")],
          rmCalls := ["joinRoom"], closedConn := false }
      | .ok (info, s1) =>
        let step2 : SigState × List String :=
          match rtpCaps with
          | some caps =>
            (setParticipantRtpCapabilities s1 roomId info.participantId caps,
             ["joinRoom", "setParticipantRtpCapabilities", "getParticipants"])
          | none => (s1, ["joinRoom", "getParticipants"])
        { client := { cl with roomId := some roomId, participantId := some info.participantId },
          rm := step2.1,
          sent := [evt "room-joined", bcast roomId "participant-joined"],
          rmCalls := step2.2, closedConn := false }
  | .leaveRoom => cleanupClientRoom cl s
  | .createTransport direction _sctpCaps =>
    match cl.roomId, cl.participantId with
    | some roomId, some participantId =>
      let r := createTransportRM s roomId participantId direction now
      { client := { cl with transportIds := cl.transportIds ++ [r.1] }, rm := r.2,
        sent := [evt "transport-created"], rmCalls := ["createTransport"], closedConn := false }
    | _, _ =>
      { client := cl, rm := s, sent := [errEvt "Not in a room" (some "NOT_IN_ROOM")],
        rmCalls := [], closedConn := false }
  | .connectTransport _transportId _dtls =>
    match cl.roomId with
    | some _ =>
      { client := cl, rm := s, sent := [evt "transport-connected"],
        rmCalls := ["connectTransport"], closedConn := false }
    | none =>
      { client := cl, rm := s, sent := [errEvt "Not in a room" (some "NOT_IN_ROOM")],
        rmCalls := [], closedConn := false }
  | .produce _transportId kind _rtpParameters appDataSource =>
    match cl.roomId, cl.participantId with
    | some roomId, some participantId =>
      let r := produceRM s roomId participantId kind appDataSource now
      { client := { cl with producerIds := cl.producerIds ++ [r.1] }, rm := r.2,
        sent := [evt "produced", bcast roomId "new-producer"],
        rmCalls := ["produce"], closedConn := false }
    | _, _ =>
      { client := cl, rm := s, sent := [errEvt "Not in a room" (some "NOT_IN_ROOM")],
        rmCalls := [], closedConn := false }
  | .consume producerId _rtpCapabilities =>
    match cl.roomId, cl.participantId with
    | some roomId, some participantId =>
      match consumeRM s roomId participantId producerId now with
      | (none, s') =>
        { client := cl, rm := s',
          sent := [errEvt "Cannot consume this producer" (some "CONSUME_ERROR")],
          rmCalls := ["consume"], closedConn := false }
      | (some c, s') =>
        { client := { cl with consumerIds := cl.consumerIds ++ [c.id] }, rm := s',
          sent := [evt "consumer-created"], rmCalls := ["consume"], closedConn := false }
    | _, _ =>
      { client := cl, rm := s, sent := [errEvt "Not in a room" (some "NOT_IN_ROOM")],
        rmCalls := [], closedConn := false }
  | .resumeConsumer _consumerId =>
    match cl.roomId with
    | some _ =>
      { client := cl, rm := s, sent := [evt "consumer-resumed"],
        rmCalls := ["resumeConsumer"], closedConn := false }
    | none =>
      { client := cl, rm := s, sent := [], rmCalls := [], closedConn := false }
  | .pauseProducer _producerId =>
    match cl.roomId with
    | some roomId =>
      { client := cl, rm := s, sent := [bcast roomId "producer-paused"],
        rmCalls := ["pauseProducer"], closedConn := false }
    | none =>
      { client := cl, rm := s, sent := [], rmCalls := [], closedConn := false }
  | .resumeProducer _producerId =>
    match cl.roomId with
    | some roomId =>
      { client := cl, rm := s, sent := [bcast roomId "producer-resumed"],
        rmCalls := ["resumeProducer"], closedConn := false }
    | none =>
      { client := cl, rm := s, sent := [], rmCalls := [], closedConn := false }
  | .closeProducer producerId =>
    match cl.roomId with
    | some roomId =>
      let s' := closeProducerRM s roomId producerId
      { client := { cl with producerIds := cl.producerIds.filter (fun p => p != producerId) },
        rm := s', sent := [bcast roomId "producer-closed"],
        rmCalls := ["closeProducer"], closedConn := false }
    | none =>
      { client := cl, rm := s, sent := [], rmCalls := [], closedConn := false }
  | .setPreferredLayers _consumerId _spatial _temporal =>
    match cl.roomId with
    | some _ =>
      { client := cl, rm := s, sent := [], rmCalls := ["setPreferredLayers"], closedConn := false }
    | none =>
      { client := cl, rm := s, sent := [], rmCalls := [], closedConn := false }
  | .getRouterRtpCapabilities _roomId =>
    { client := cl, rm := s, sent := [evt "router-rtp-capabilities"],
      rmCalls := ["getRouterRtpCapabilities"], closedConn := false }
  | .unknown e =>
    { client := cl, rm := s, sent := [errEvt ("Unknown event: " ++ e) none],
      rmCalls := [], closedConn := false }

/-! ## Concrete sample states (used by witnesses and counterexamples) -/

def sampleNode : SFUNode :=
  { id := "sfu-a-4000", host := "a", port := 4000, isHealthy := true, load := 0 }

/-- A coordination store that already holds a placement for room r1. -/
def c1sfum : SFUMState :=
  { nodes := [sampleNode],
    placements := [("r1", { nodeId := "sfu-a-4000", routerId := "router-old" })] }

/-- A router manager that already holds room r1's router. -/
def c1router : RoomRouter :=
  { id := "router-old", roomId := "r1", workerPid := 41, rtpCapabilities := "caps-r1",
    canConsume := fun _ _ => true, transports := [], producers := [], consumers := [] }

def c1routerm : RouterMState :=
  { routers := [("router-old", c1router)],
    workers := [{ pid := 41, routerCount := 1, usage := none, closed := false }],
    placements := [("r1", { nodeId := "node-a", routerId := "router-old" })],
    nodeId := "node-a" }

/-- A router whose `canConsume` rejects everything, with one transport and
one producer present. -/
def c3router : RoomRouter :=
  { id := "rt1", roomId := "r1", workerPid := 41, rtpCapabilities := "caps",
    canConsume := fun _ _ => false,
    transports := [("t1", "transport-obj")],
    producers := [("p1", { id := "p1", kind := "video" })],
    consumers := [] }

def c3routerm : RouterMState :=
  { routers := [("rt1", c3router)], workers := [], placements := [], nodeId := "node-a" }

/-- An SFU node whose worker 41 carries room r1's active routing context,
with the matching placement record in the shared store. -/
def c4router : RoomRouter :=
  { id := "router-1", roomId := "r1", workerPid := 41, rtpCapabilities := "caps",
    canConsume := fun _ _ => true, transports := [], producers := [], consumers := [] }

def c4system : SfuSystem :=
  { workers := [{ pid := 41, routerCount := 1, usage := none, closed := false }],
    routers := [("router-1", c4router)],
    placements := [("r1", { nodeId := "node-a", routerId := "router-1" })],
    notifications := [] }

/-- Room r1 with its sole participant p1 (who holds one producer), the
placement record, and the owning SFU node's live routing context. -/
def c7part1 : RoomParticipant :=
  { id := "p1", odUserId := "u1", displayName := "Alice", role := "host",
    rtpCapabilities := none, sendTransportId := none, recvTransportId := none,
    producers := [("prod1", { id := "prod1", kind := "video", source := "camera", paused := false })],
    consumers := [] }

def c7room : RoomState :=
  { id := "r1", sfuNode := "a:4000", routerId := "router-1",
    routerRtpCapabilities := emptyJson, participants := [("p1", c7part1)] }

def c7sfurouter : RoomRouter :=
  { id := "router-1", roomId := "r1", workerPid := 41, rtpCapabilities := "caps",
    canConsume := fun _ _ => true, transports := [], producers := [], consumers := [] }

def c7cluster : ClusterState :=
  { sig := { rooms := [("r1", c7room)],
             sfu := { nodes := [sampleNode],
                      placements := [("r1", { nodeId := "sfu-a-4000", routerId := "router-1" })] } },
    sfuRouters := [("router-1", c7sfurouter)] }

/-- A two-participant variant of room r1 used to exercise the non-empty
branch of `leaveRoom`. -/
def c7part2 : RoomParticipant :=
  { id := "p2", odUserId := "u2", displayName := "Bob", role := "viewer",
    rtpCapabilities := none, sendTransportId := none, recvTransportId := none,
    producers := [], consumers := [] }

def c7room2 : RoomState :=
  { c7room with participants := [("p1", c7part1), ("p2", c7part2)] }

def c7cluster2 : ClusterState :=
  { c7cluster with sig := { c7cluster.sig with rooms := [("r1", c7room2)] } }

/-- A freshly connected, unauthenticated client. -/
def unauthClient : Client :=
  { id := "client-1", user := none, roomId := none, participantId := none,
    transportIds := [], producerIds := [], consumerIds := [] }

/-- An authenticated client that has not joined any room. -/
def authNoRoomClient : Client :=
  { unauthClient with id := "client-2", user := some "u1" }

def emptySig : SigState :=
  { rooms := [], sfu := { nodes := [], placements := [] } }

/-- An auth collaborator that rejects every token. -/
def noAuth : String → Option String := fun _ => none

def noMember : String → String → Bool := fun _ _ => false

/-! ## Map lemmas -/

namespace SMap

theorem find?_set_self {α : Type} (m : SMap α) (k : String) (v : α) :
    (m.set k v).find? k = some v := by
  induction m with
  | nil => simp [set, find?]
  | cons kv rest ih =>
    by_cases h : kv.1 = k
    · simp [set, find?, h]
    · simp [set, find?, h, ih]

theorem find?_set_ne {α : Type} (m : SMap α) (k q : String) (v : α)
    (h : q ≠ k) : (m.set k v).find? q = m.find? q := by
  have h' : ¬k = q := fun hh => h hh.symm
  induction m with
  | nil => simp [set, find?, h']
  | cons kv rest ih =>
    by_cases hk : kv.1 = k
    · subst hk
      simp [set, find?, h']
    · simp only [set, if_neg hk]
      by_cases hq : kv.1 = q
      · simp [find?, hq]
      · simp [find?, hq, ih]

theorem find?_erase_ne {α : Type} (m : SMap α) (k q : String)
    (h : q ≠ k) : (m.erase k).find? q = m.find? q := by
  have h' : ¬k = q := fun hh => h hh.symm
  induction m with
  | nil => simp [erase]
  | cons kv rest ih =>
    by_cases hk : kv.1 = k
    · subst hk
      simp [erase, find?, h']
    · simp only [erase, if_neg hk]
      by_cases hq : kv.1 = q
      · simp [find?, hq]
      · simp [find?, hq, ih]

theorem find?_eq_none_of_not_mem_keys {α : Type} (m : SMap α) (k : String)
    (h : k ∉ m.map Prod.fst) : m.find? k = none := by
  induction m with
  | nil => simp [find?]
  | cons kv rest ih =>
    simp only [List.map_cons, List.mem_cons] at h
    push_neg at h
    have h1 : ¬kv.1 = k := fun hh => h.1 hh.symm
    simp [find?, h1, ih h.2]

theorem find?_erase_self {α : Type} (m : SMap α) (k : String)
    (h : keysNodup m) : (m.erase k).find? k = none := by
  induction m with
  | nil => simp [erase, find?]
  | cons kv rest ih =>
    simp only [keysNodup, List.map_cons, List.nodup_cons] at h
    by_cases hk : kv.1 = k
    · subst hk
      simp only [erase, if_pos rfl]
      exact find?_eq_none_of_not_mem_keys rest kv.1 h.1
    · simp [erase, hk, find?, ih h.2]

theorem size_erase_of_find? {α : Type} (m : SMap α) (k : String) (v : α)
    (h : m.find? k = some v) : (m.erase k).size + 1 = m.size := by
  induction m with
  | nil => simp [find?] at h
  | cons kv rest ih =>
    by_cases hk : kv.1 = k
    · simp [erase, hk, size]
    · simp only [find?, if_neg hk] at h
      simp [erase, hk, size] at ih ⊢
      exact ih h

theorem keys_erase_subset {α : Type} (l : SMap α) (k : String) :
    (erase l k).map Prod.fst ⊆ l.map Prod.fst := by
  induction l with
  | nil =>
    intro a ha
    simp [erase] at ha
  | cons kv' rest' ih' =>
    by_cases hk' : kv'.1 = k
    · simp only [erase, if_pos hk']
      exact fun a ha => List.mem_cons_of_mem _ ha
    · simp only [erase, if_neg hk', List.map_cons]
      intro a ha
      rcases List.mem_cons.mp ha with h1 | h2
      · exact List.mem_cons.mpr (Or.inl h1)
      · exact List.mem_cons.mpr (Or.inr (ih' h2))

theorem keysNodup_erase {α : Type} (m : SMap α) (k : String)
    (h : keysNodup m) : keysNodup (m.erase k) := by
  induction m with
  | nil => simpa [erase] using h
  | cons kv rest ih =>
    simp only [keysNodup, List.map_cons, List.nodup_cons] at h
    by_cases hk : kv.1 = k
    · simpa [erase, hk, keysNodup] using h.2
    · have hrest := ih h.2
      simp only [keysNodup, erase, if_neg hk, List.map_cons, List.nodup_cons]
      exact ⟨fun hmem => h.1 (keys_erase_subset rest k hmem), hrest⟩

end SMap

/-! ## Worker-pool lemmas -/

theorem routerCountsNonneg_applyFirst (p : WorkerInfo → Bool)
    (f : WorkerInfo → WorkerInfo)
    (hf : ∀ w, 0 ≤ w.routerCount → 0 ≤ (f w).routerCount)
    (ws : List WorkerInfo) (h : routerCountsNonneg ws) :
    routerCountsNonneg (applyFirst p f ws) := by
  induction ws with
  | nil => simpa [applyFirst] using h
  | cons a as ih =>
    have ha : 0 ≤ a.routerCount := h a (List.mem_cons_self a as)
    have has : routerCountsNonneg as := fun w hw => h w (List.mem_cons_of_mem a hw)
    by_cases hp : p a
    · simp only [applyFirst, if_pos hp]
      intro w hw
      rcases List.mem_cons.mp hw with h1 | h2
      · subst h1; exact hf a ha
      · exact has w h2
    · simp only [applyFirst, if_neg hp]
      intro w hw
      rcases List.mem_cons.mp hw with h1 | h2
      · subst h1; exact ha
      · exact ih has w h2

theorem routerCountsNonneg_step (ws : List WorkerInfo) (op : WMOp)
    (h : routerCountsNonneg ws) : routerCountsNonneg (wmStep ws op) := by
  cases op with
  | inc pid =>
    exact routerCountsNonneg_applyFirst _ _
      (fun w hw => by simp; omega) ws h
  | dec pid =>
    refine routerCountsNonneg_applyFirst _ _ (fun w hw => ?_) ws h
    by_cases hpos : w.routerCount > 0
    · simp [hpos]; omega
    · simp [hpos]; exact hw
  | death index newPid =>
    intro w hw
    rcases List.mem_or_eq_of_mem_set hw with h1 | h2
    · exact h w h1
    · subst h2; simp

theorem routerCountsNonneg_init (pids : List Nat) :
    routerCountsNonneg (initializeWorkers pids) := by
  intro w hw
  simp only [initializeWorkers, List.mem_map] at hw
  rcases hw with ⟨p, _, rfl⟩
  simp

theorem routerCountsNonneg_run (ws : List WorkerInfo) (ops : List WMOp)
    (h : routerCountsNonneg ws) : routerCountsNonneg (wmRun ws ops) := by
  induction ops generalizing ws with
  | nil => simpa [wmRun] using h
  | cons op rest ih =>
    simp only [wmRun, List.foldl_cons]
    exact ih (wmStep ws op) (routerCountsNonneg_step ws op h)

/-! ## Claim theorems -/

/-- C9: every worker slot's tracked `routerCount` is a non-negative integer
at all times — it starts at 0 after `initialize`, and stays non-negative
under any sequence of `incrementRouterCount`, guarded
`decrementRouterCount`, and death-triggered slot replacement (which resets
the count to 0). -/
theorem c9_routerCount_nonneg (pids : List Nat) (ops : List WMOp)
    (w : WorkerInfo) (hw : w ∈ wmRun (initializeWorkers pids) ops) :
    0 ≤ w.routerCount :=
  routerCountsNonneg_run (initializeWorkers pids) ops (routerCountsNonneg_init pids) w hw

/-- Witness for C9: two workers, a decrement on a zero counter, an
increment, then two more decrements — the counter never goes below zero. -/
theorem c9_routerCount_nonneg_witness :
    ({ pid := 5, routerCount := 0, usage := none, closed := false } : WorkerInfo) ∈
      wmRun (initializeWorkers [5, 6]) [.dec 5, .inc 5, .dec 5, .dec 5] ∧
    0 ≤ ({ pid := 5, routerCount := 0, usage := none, closed := false } : WorkerInfo).routerCount :=
  ⟨by decide,
   c9_routerCount_nonneg [5, 6] [.dec 5, .inc 5, .dec 5, .dec 5]
     { pid := 5, routerCount := 0, usage := none, closed := false } (by decide)⟩

/-- C10: `checkMessage` consumes one point from the per-connection limiter
before consulting the per-user limiter, so a denial caused by the exhausted
user-level limit leaves the per-connection counter incremented by one (not
refunded) and the user-level counter unchanged. -/
theorem c10_conn_point_not_refunded (cfg : RateLimiterConfig) (s : RLState)
    (connectionId uid : String)
    (h1 : (s.msgCounts.find? connectionId).getD 0 < cfg.messagePoints)
    (h2 : cfg.globalMessagePoints ≤ (s.globalCounts.find? uid).getD 0) :
    checkMessage cfg s connectionId (some uid) =
      (false,
       { msgCounts := s.msgCounts.set connectionId ((s.msgCounts.find? connectionId).getD 0 + 1),
         globalCounts := s.globalCounts }) := by
  unfold checkMessage consumePoint
  simp [h1, Nat.not_lt.mpr h2]

/-- Witness for C10: the connection has budget left (0 of 2 used), the user
is at their global limit (1 of 1) — the request is denied, yet the
connection counter moves to 1. -/
theorem c10_conn_point_not_refunded_witness :
    checkMessage { messagePoints := 2, globalMessagePoints := 1 }
        { msgCounts := [], globalCounts := [("u", 1)] } "c" (some "u") =
      (false, { msgCounts := [("c", 1)], globalCounts := [("u", 1)] }) :=
  c10_conn_point_not_refunded { messagePoints := 2, globalMessagePoints := 1 }
    { msgCounts := [], globalCounts := [("u", 1)] } "c" "u" (by decide) (by decide)

/-- C1: allocation is idempotent.  `allocateRoom` on a room that already
has a stored placement returns that stored `(nodeId, routerId)` and leaves
the store untouched; `createRouter` on a room that already has a router
returns that router's id and capabilities and adds nothing — no state
component changes and no worker count moves. -/
theorem c1_allocation_idempotent
    (s1 : SFUMState) (roomId1 : String) (now : Nat) (a : RoomAlloc)
    (h1 : s1.placements.find? roomId1 = some a)
    (s2 : RouterMState) (roomId2 : String) (r : RoomRouter)
    (h2 : findRouterByRoom s2.routers roomId2 = some r)
    (freshId caps : String) (cc : String → String → Bool) :
    allocateRoom s1 roomId1 now =
      .ok ({ node := a.nodeId, routerId := a.routerId }, s1) ∧
    createRouter s2 roomId2 freshId caps cc = ((r.id, r.rtpCapabilities), s2) := by
  constructor
  · unfold allocateRoom
    rw [h1]
  · unfold createRouter
    rw [h2]

/-- Witness for C1: a store already holding a placement for room r1 and a
router manager already holding r1's router. -/
theorem c1_allocation_idempotent_witness :
    allocateRoom c1sfum "r1" 77 =
      .ok ({ node := "sfu-a-4000", routerId := "router-old" }, c1sfum) ∧
    createRouter c1routerm "r1" "fresh-uuid" "caps-new" (fun _ _ => true) =
      (("router-old", "caps-r1"), c1routerm) :=
  c1_allocation_idempotent c1sfum "r1" 77
    { nodeId := "sfu-a-4000", routerId := "router-old" } (by rfl)
    c1routerm "r1" c1router (by rfl) "fresh-uuid" "caps-new" (fun _ _ => true)

/-- C3: a `consume` whose capability check fails returns `null` (inside a
successful, non-throwing result) and leaves the router manager state —
transports, producers and consumers maps included — exactly as it was. -/
theorem c3_incompatible_consume_returns_null
    (s : RouterMState) (routerId transportId producerId caps freshId : String)
    (rr : RoomRouter) (h1 : s.routers.find? routerId = some rr)
    (t : String) (h2 : rr.transports.find? transportId = some t)
    (p : MsProducer) (h3 : rr.producers.find? producerId = some p)
    (h4 : rr.canConsume producerId caps = false) :
    routerConsume s routerId transportId producerId caps freshId = .ok (none, s) := by
  simp [routerConsume, h1, h2, h3, h4]

/-- Witness for C3: a router whose `canConsume` rejects everything, with
the addressed transport and producer present. -/
theorem c3_incompatible_consume_returns_null_witness :
    routerConsume c3routerm "rt1" "t1" "p1" "incompatible-caps" "c-fresh" =
      .ok (none, c3routerm) :=
  c3_incompatible_consume_returns_null c3routerm "rt1" "t1" "p1" "incompatible-caps" "c-fresh"
    c3router (by rfl) "transport-obj" (by rfl) { id := "p1", kind := "video" } (by rfl) (by rfl)

/-- C5 (code bug): a registered node whose heartbeat key has expired (the
Redis TTL key reads as absent) is not marked unhealthy by `checkHealth` —
the `if (heartbeat)` guard skips the update and the stale `isHealthy: true`
survives — and `getBestNode` still selects it for new allocations.  The
heartbeat key is written with a 30 s TTL, so the `age < 60000` branch can
never observe a stale-but-present beat: a silent node is simply never
demoted. -/
theorem c5_expired_heartbeat_node_stays_selectable :
    checkHealth (fun _ => none) (fun _ => none) 1000000000 [sampleNode] = [sampleNode] ∧
    getBestNode (checkHealth (fun _ => none) (fun _ => none) 1000000000 [sampleNode]) =
      some sampleNode ∧
    sampleNode.isHealthy = true :=
  ⟨rfl, rfl, rfl⟩

/-- C4 counterexample: worker 41 carries room r1's active context; its
death replaces the slot (`routerCount` back to 0) but the placement record
for r1 is still in the store afterwards and no participant-facing
notification was emitted — the claim's required effects do not happen. -/
theorem c4_counterexample :
    (onWorkerDied c4system 0 99).placements.find? "r1" =
      some { nodeId := "node-a", routerId := "router-1" } ∧
    (onWorkerDied c4system 0 99).notifications = [] ∧
    (onWorkerDied c4system 0 99).workers =
      [{ pid := 99, routerCount := 0, usage := none, closed := false }] ∧
    c4system.workers = [{ pid := 41, routerCount := 1, usage := none, closed := false }] :=
  ⟨rfl, rfl, rfl, rfl⟩

/-- C4 as amended: a worker's death only replaces the slot with a fresh
worker (count 0); placements, routers and the outbound notification log are
untouched — worker death is absorbed by restart alone. -/
theorem c4_amended (s : SfuSystem) (index newPid : Nat)
    (h : index < s.workers.length) :
    (onWorkerDied s index newPid).placements = s.placements ∧
    (onWorkerDied s index newPid).routers = s.routers ∧
    (onWorkerDied s index newPid).notifications = s.notifications ∧
    (onWorkerDied s index newPid).workers[index]? =
      some { pid := newPid, routerCount := 0, usage := none, closed := false } := by
  refine ⟨rfl, rfl, rfl, ?_⟩
  simp only [onWorkerDied, handleWorkerDeath]
  exact List.getElem?_set_eq_of_lt _ h

/-- Witness for the amended C4 at the concrete one-worker system. -/
theorem c4_amended_witness :
    (onWorkerDied c4system 0 99).placements = c4system.placements ∧
    (onWorkerDied c4system 0 99).routers = c4system.routers ∧
    (onWorkerDied c4system 0 99).notifications = c4system.notifications ∧
    (onWorkerDied c4system 0 99).workers[0]? =
      some { pid := 99, routerCount := 0, usage := none, closed := false } :=
  c4_amended c4system 0 99 (by decide)

/-- C6 counterexample: user u has 3 consumed points in the global per-user
limiter; the disconnect cleanup of u's connection c deletes that entry, so
the user-level counter does not persist across the reconnect. -/
theorem c6_counterexample :
    (cleanupClientRateLimits
        { msgCounts := [("c", 5)], globalCounts := [("u", 3)] } "c" (some "u")).globalCounts.find? "u"
      = none ∧
    ({ msgCounts := [("c", 5)], globalCounts := [("u", 3)] } : RLState).globalCounts.find? "u"
      = some 3 :=
  ⟨rfl, rfl⟩

/-- C6 as amended: `reset(key)` deletes the entry at `key` from both the
per-connection and the per-user limiter, and disconnect cleanup calls it
with the connection id and, for an authenticated client, with the user id
as well — so the user-level counter of the disconnecting user is cleared,
while counters under any other key survive. -/
theorem c6_amended (s : RLState) (clientId uid : String)
    (hg : SMap.keysNodup s.globalCounts)
    (k : String) (hk1 : k ≠ clientId) (hk2 : k ≠ uid) :
    (cleanupClientRateLimits s clientId (some uid)).globalCounts.find? uid = none ∧
    (cleanupClientRateLimits s clientId (some uid)).globalCounts.find? k =
      s.globalCounts.find? k ∧
    (cleanupClientRateLimits s clientId (some uid)).msgCounts.find? k =
      s.msgCounts.find? k := by
  unfold cleanupClientRateLimits resetLimits
  refine ⟨?_, ?_, ?_⟩
  · exact SMap.find?_erase_self _ uid (SMap.keysNodup_erase _ clientId hg)
  · rw [SMap.find?_erase_ne _ uid k hk2, SMap.find?_erase_ne _ clientId k hk1]
  · rw [SMap.find?_erase_ne _ uid k hk2, SMap.find?_erase_ne _ clientId k hk1]

/-- Witness for the amended C6: user u's counter is wiped by the cleanup of
connection c while bystander v's counter survives. -/
theorem c6_amended_witness :
    (cleanupClientRateLimits
        { msgCounts := [("c", 5)], globalCounts := [("u", 3), ("v", 7)] } "c" (some "u")).globalCounts.find? "u"
      = none ∧
    (cleanupClientRateLimits
        { msgCounts := [("c", 5)], globalCounts := [("u", 3), ("v", 7)] } "c" (some "u")).globalCounts.find? "v"
      = ({ msgCounts := [("c", 5)], globalCounts := [("u", 3), ("v", 7)] } : RLState).globalCounts.find? "v" ∧
    (cleanupClientRateLimits
        { msgCounts := [("c", 5)], globalCounts := [("u", 3), ("v", 7)] } "c" (some "u")).msgCounts.find? "v"
      = ({ msgCounts := [("c", 5)], globalCounts := [("u", 3), ("v", 7)] } : RLState).msgCounts.find? "v" :=
  c6_amended { msgCounts := [("c", 5)], globalCounts := [("u", 3), ("v", 7)] } "c" "u"
    (by decide) "v" (by decide) (by decide)

/-- C7 counterexample: p1 is the last participant of r1.  `leaveRoom`
deletes the room and releases the placement, but the routing context on
the owning SFU node is not closed — `RouterManager.routers` still holds
r1's router afterwards (nothing in the leave path reaches the SFU node;
`releaseRoom` only deletes the placement record). -/
theorem c7_counterexample :
    (clusterLeaveRoom c7cluster "r1" "p1").sfuRouters = c7cluster.sfuRouters ∧
    findRouterByRoom (clusterLeaveRoom c7cluster "r1" "p1").sfuRouters "r1" = some c7sfurouter ∧
    (clusterLeaveRoom c7cluster "r1" "p1").sig.rooms.find? "r1" = none ∧
    (clusterLeaveRoom c7cluster "r1" "p1").sig.sfu.placements.find? "r1" = none :=
  ⟨rfl, rfl, rfl, rfl⟩

/-- C7 as amended: `leaveRoom` removes exactly the leaving participant's
roster entry (with their producers and consumers), leaves every other
participant's entry unchanged and shrinks the roster by one; when the
roster empties, the room record is dropped and the placement record erased
from the store, while the SFU-side routing context is never instructed to
close. -/
theorem c7_amended (c : ClusterState) (roomId participantId : String)
    (room : RoomState) (part : RoomParticipant)
    (hroom : c.sig.rooms.find? roomId = some room)
    (hpart : room.participants.find? participantId = some part)
    (hnodupP : SMap.keysNodup room.participants)
    (hnodupR : SMap.keysNodup c.sig.rooms) :
    (clusterLeaveRoom c roomId participantId).sfuRouters = c.sfuRouters ∧
    (room.participants.erase participantId).size + 1 = room.participants.size ∧
    (room.participants.erase participantId).find? participantId = none ∧
    (∀ q, q ≠ participantId →
      (room.participants.erase participantId).find? q = room.participants.find? q) ∧
    (if (room.participants.erase participantId).size = 0 then
        (clusterLeaveRoom c roomId participantId).sig.rooms.find? roomId = none ∧
        (clusterLeaveRoom c roomId participantId).sig.sfu.placements =
          c.sig.sfu.placements.erase roomId
      else
        (clusterLeaveRoom c roomId participantId).sig.rooms.find? roomId =
          some { room with participants := room.participants.erase participantId } ∧
        (clusterLeaveRoom c roomId participantId).sig.sfu.placements =
          c.sig.sfu.placements) := by
  refine ⟨rfl, SMap.size_erase_of_find? _ _ _ hpart,
          SMap.find?_erase_self _ _ hnodupP,
          fun q hq => SMap.find?_erase_ne _ _ _ hq, ?_⟩
  by_cases hsz : (room.participants.erase participantId).size = 0
  · simp only [if_pos hsz]
    constructor
    · simp only [clusterLeaveRoom, leaveRoomRM, hroom, hsz, if_pos]
      exact SMap.find?_erase_self _ _ hnodupR
    · simp only [clusterLeaveRoom, leaveRoomRM, releaseRoom, hroom, hsz, if_pos]
  · simp only [if_neg hsz]
    constructor
    · simp only [clusterLeaveRoom, leaveRoomRM, hroom, hsz, if_neg, if_false]
      exact SMap.find?_set_self _ _ _
    · simp only [clusterLeaveRoom, leaveRoomRM, hroom, hsz, if_neg, if_false]

/-- Witness for the amended C7 at the two-participant room: p1 leaves, p2's
entry is untouched, the room and placement survive, the SFU context is
untouched. -/
theorem c7_amended_witness :
    (clusterLeaveRoom c7cluster2 "r1" "p1").sfuRouters = c7cluster2.sfuRouters ∧
    (c7room2.participants.erase "p1").size + 1 = c7room2.participants.size ∧
    (c7room2.participants.erase "p1").find? "p1" = none ∧
    (∀ q, q ≠ "p1" →
      (c7room2.participants.erase "p1").find? q = c7room2.participants.find? q) ∧
    (if (c7room2.participants.erase "p1").size = 0 then
        (clusterLeaveRoom c7cluster2 "r1" "p1").sig.rooms.find? "r1" = none ∧
        (clusterLeaveRoom c7cluster2 "r1" "p1").sig.sfu.placements =
          c7cluster2.sig.sfu.placements.erase "r1"
      else
        (clusterLeaveRoom c7cluster2 "r1" "p1").sig.rooms.find? "r1" =
          some { c7room2 with participants := c7room2.participants.erase "p1" } ∧
        (clusterLeaveRoom c7cluster2 "r1" "p1").sig.sfu.placements =
          c7cluster2.sig.sfu.placements) :=
  c7_amended c7cluster2 "r1" "p1" c7room2 c7part1 (by rfl) (by rfl)
    (by decide) (by decide)

/-- C2 counterexample: an unauthenticated connection sending
`get-router-rtp-capabilities` is neither rejected with an authentication
error nor kept away from the RoomManager — the handler dispatches to
`RoomManager.getRouterRtpCapabilities` and answers with the capabilities
event. -/
theorem c2_counterexample :
    unauthClient.user = none ∧
    (handleMessage noAuth noMember 0 unauthClient emptySig
        (.getRouterRtpCapabilities "r1")).rmCalls = ["getRouterRtpCapabilities"] ∧
    (handleMessage noAuth noMember 0 unauthClient emptySig
        (.getRouterRtpCapabilities "r1")).sent = [evt "router-rtp-capabilities"] :=
  ⟨rfl, rfl, rfl⟩

/-- C2 as amended: while unauthenticated (and hence roomless), every
message other than `authenticate` and `get-router-rtp-capabilities` stays
away from the RoomManager; `join-room` is answered with the
NOT_AUTHENTICATED error; `get-router-rtp-capabilities` alone is dispatched
regardless of authentication. -/
theorem c2_amended (auth : String → Option String) (isMember : String → String → Bool)
    (now : Nat) (cl : Client) (s : SigState) (msg : ClientMessage)
    (hu : cl.user = none) (hr : cl.roomId = none)
    (hnotAuth : ∀ t o, msg ≠ .authenticate t o)
    (hnotCaps : ∀ r, msg ≠ .getRouterRtpCapabilities r) :
    (handleMessage auth isMember now cl s msg).rmCalls = [] ∧
    (handleMessage auth isMember now cl s msg).closedConn = false ∧
    (∀ roomId role dn caps, msg = .joinRoom roomId role dn caps →
      (handleMessage auth isMember now cl s msg).sent =
        [errEvt "Not authenticated" (some "NOT_AUTHENTICATED")]) := by
  cases msg with
  | authenticate t o => exact absurd rfl (hnotAuth t o)
  | getRouterRtpCapabilities r => exact absurd rfl (hnotCaps r)
  | joinRoom r ro d cps =>
    refine ⟨by simp [handleMessage, hu], by simp [handleMessage, hu], ?_⟩
    intro r' ro' d' cps' h
    simp [handleMessage, hu]
  | leaveRoom =>
    refine ⟨by simp [handleMessage, cleanupClientRoom, hr],
            by simp [handleMessage, cleanupClientRoom, hr], ?_⟩
    intro r' ro' d' cps' h
    exact ClientMessage.noConfusion h
  | createTransport d sc =>
    refine ⟨by simp [handleMessage, hr], by simp [handleMessage, hr], ?_⟩
    intro r' ro' d' cps' h
    exact ClientMessage.noConfusion h
  | connectTransport t dt =>
    refine ⟨by simp [handleMessage, hr], by simp [handleMessage, hr], ?_⟩
    intro r' ro' d' cps' h
    exact ClientMessage.noConfusion h
  | produce t k rp ad =>
    refine ⟨by simp [handleMessage, hr], by simp [handleMessage, hr], ?_⟩
    intro r' ro' d' cps' h
    exact ClientMessage.noConfusion h
  | consume p rc =>
    refine ⟨by simp [handleMessage, hr], by simp [handleMessage, hr], ?_⟩
    intro r' ro' d' cps' h
    exact ClientMessage.noConfusion h
  | resumeConsumer cid =>
    refine ⟨by simp [handleMessage, hr], by simp [handleMessage, hr], ?_⟩
    intro r' ro' d' cps' h
    exact ClientMessage.noConfusion h
  | pauseProducer p =>
    refine ⟨by simp [handleMessage, hr], by simp [handleMessage, hr], ?_⟩
    intro r' ro' d' cps' h
    exact ClientMessage.noConfusion h
  | resumeProducer p =>
    refine ⟨by simp [handleMessage, hr], by simp [handleMessage, hr], ?_⟩
    intro r' ro' d' cps' h
    exact ClientMessage.noConfusion h
  | closeProducer p =>
    refine ⟨by simp [handleMessage, hr], by simp [handleMessage, hr], ?_⟩
    intro r' ro' d' cps' h
    exact ClientMessage.noConfusion h
  | setPreferredLayers cid sp tp =>
    refine ⟨by simp [handleMessage, hr], by simp [handleMessage, hr], ?_⟩
    intro r' ro' d' cps' h
    exact ClientMessage.noConfusion h
  | unknown e =>
    refine ⟨by simp [handleMessage], by simp [handleMessage], ?_⟩
    intro r' ro' d' cps' h
    exact ClientMessage.noConfusion h

/-- Witness for the amended C2: an unauthenticated client's
`create-transport` never reaches the RoomManager and does not close the
connection. -/
theorem c2_amended_witness :
    (handleMessage noAuth noMember 0 unauthClient emptySig
        (.createTransport "send" none)).rmCalls = [] ∧
    (handleMessage noAuth noMember 0 unauthClient emptySig
        (.createTransport "send" none)).closedConn = false ∧
    (∀ roomId role dn caps,
      (ClientMessage.createTransport "send" none) = .joinRoom roomId role dn caps →
      (handleMessage noAuth noMember 0 unauthClient emptySig
          (.createTransport "send" none)).sent =
        [errEvt "Not authenticated" (some "NOT_AUTHENTICATED")]) :=
  c2_amended noAuth noMember 0 unauthClient emptySig (.createTransport "send" none)
    rfl rfl (fun _ _ h => ClientMessage.noConfusion h)
    (fun _ h => ClientMessage.noConfusion h)

/-- C8 counterexample: `resume-consumer` sent while not in a room is
silently ignored — no error event (no event at all) is sent back, contrary
to the claim that no wrong-state message is silently dropped. -/
theorem c8_counterexample :
    authNoRoomClient.roomId = none ∧
    (handleMessage noAuth noMember 0 authNoRoomClient emptySig
        (.resumeConsumer "c1")).sent = [] ∧
    (handleMessage noAuth noMember 0 authNoRoomClient emptySig
        (.resumeConsumer "c1")).closedConn = false :=
  ⟨rfl, rfl, rfl⟩

/-- C8 as amended: for a connection not in a room, unknown messages get the
structured unknown-event error, the transport/produce/consume requests get
the NOT_IN_ROOM error, while resume-consumer, pause/resume/close-producer
and set-preferred-layers are silently ignored; no inbound message ever
closes the connection. -/
theorem c8_amended (auth : String → Option String) (isMember : String → String → Bool)
    (now : Nat) (cl : Client) (s : SigState) (hr : cl.roomId = none) :
    (∀ e, (handleMessage auth isMember now cl s (.unknown e)).sent =
        [errEvt ("Unknown event: " ++ e) none]) ∧
    (∀ d sc, (handleMessage auth isMember now cl s (.createTransport d sc)).sent =
        [errEvt "Not in a room" (some "NOT_IN_ROOM")]) ∧
    (∀ t dt, (handleMessage auth isMember now cl s (.connectTransport t dt)).sent =
        [errEvt "Not in a room" (some "NOT_IN_ROOM")]) ∧
    (∀ t k rp ad, (handleMessage auth isMember now cl s (.produce t k rp ad)).sent =
        [errEvt "Not in a room" (some "NOT_IN_ROOM")]) ∧
    (∀ p rc, (handleMessage auth isMember now cl s (.consume p rc)).sent =
        [errEvt "Not in a room" (some "NOT_IN_ROOM")]) ∧
    (∀ cid, (handleMessage auth isMember now cl s (.resumeConsumer cid)).sent = []) ∧
    (∀ p, (handleMessage auth isMember now cl s (.pauseProducer p)).sent = []) ∧
    (∀ p, (handleMessage auth isMember now cl s (.resumeProducer p)).sent = []) ∧
    (∀ p, (handleMessage auth isMember now cl s (.closeProducer p)).sent = []) ∧
    (∀ cid sp tp,
      (handleMessage auth isMember now cl s (.setPreferredLayers cid sp tp)).sent = []) ∧
    (∀ msg, (handleMessage auth isMember now cl s msg).closedConn = false) := by
  refine ⟨fun e => by simp [handleMessage],
          fun d sc => by simp [handleMessage, hr],
          fun t dt => by simp [handleMessage, hr],
          fun t k rp ad => by simp [handleMessage, hr],
          fun p rc => by simp [handleMessage, hr],
          fun cid => by simp [handleMessage, hr],
          fun p => by simp [handleMessage, hr],
          fun p => by simp [handleMessage, hr],
          fun p => by simp [handleMessage, hr],
          fun cid sp tp => by simp [handleMessage, hr],
          fun msg => ?_⟩
  cases msg with
  | authenticate t o =>
    cases hA : auth t with
    | none => simp [handleMessage, hA]
    | some uid =>
      by_cases hm : isMember uid o <;> simp [handleMessage, hA, hm]
  | joinRoom r ro d cps =>
    cases hU : cl.user with
    | none => simp [handleMessage, hU]
    | some uid =>
      cases hJ : joinRoomRM s r uid ro d now with
      | error e => simp [handleMessage, hU, hJ]
      | ok pr =>
        obtain ⟨info, s1⟩ := pr
        cases cps <;> simp [handleMessage, hU, hJ]
  | leaveRoom => simp [handleMessage, cleanupClientRoom, hr]
  | createTransport d sc => simp [handleMessage, hr]
  | connectTransport t dt => simp [handleMessage, hr]
  | produce t k rp ad => simp [handleMessage, hr]
  | consume p rc => simp [handleMessage, hr]
  | resumeConsumer cid => simp [handleMessage, hr]
  | pauseProducer p => simp [handleMessage, hr]
  | resumeProducer p => simp [handleMessage, hr]
  | closeProducer p => simp [handleMessage, hr]
  | setPreferredLayers cid sp tp => simp [handleMessage, hr]
  | getRouterRtpCapabilities r => simp [handleMessage]
  | unknown e => simp [handleMessage]

/-- Witness for the amended C8 at concrete inputs: the unknown event gets
its error, `create-transport` gets NOT_IN_ROOM, `resume-consumer` is
silently ignored, and nothing closes the connection. -/
theorem c8_amended_witness :
    (handleMessage noAuth noMember 0 authNoRoomClient emptySig
        (.unknown "bogus")).sent = [errEvt ("Unknown event: " ++ "bogus") none] ∧
    (handleMessage noAuth noMember 0 authNoRoomClient emptySig
        (.createTransport "send" none)).sent = [errEvt "Not in a room" (some "NOT_IN_ROOM")] ∧
    (handleMessage noAuth noMember 0 authNoRoomClient emptySig
        (.resumeConsumer "x")).sent = [] ∧
    (handleMessage noAuth noMember 0 authNoRoomClient emptySig
        (.resumeConsumer "x")).closedConn = false := by
  have h := c8_amended noAuth noMember 0 authNoRoomClient emptySig rfl
  exact ⟨h.1 "bogus", h.2.1 "send" none, h.2.2.2.2.2.1 "x",
         h.2.2.2.2.2.2.2.2.2.2 (.resumeConsumer "x")⟩

end StreamingCloud
